import Mathlib

/-!
Verification of the HabitCards API backend (src/backend/main.py).

The backend is a Flask app: an API-key auth gate, a key-value store holding
one JSON-array blob per collection, CRUD handlers generated per collection,
a prompt builder for an AI parse endpoint, and provider fallback selection.

Shallow embedding conventions:
* JSON values are the inductive `Json`; Python dicts become association
  lists with unique keys (`Item`); numeric literals are modelled as `Int`
  (no floats are stored or compared by the verified routines).
* The key-value store is modelled twice: at the raw string level
  (`db_get`, mirroring the `USE_REPLIT_DB` branch and the in-memory
  fallback, together with an executable JSON parser for the stored blob),
  and at the decoded level (`Store`, `db_items`, `db_add`, `db_delete`)
  where a collection name maps directly to its decoded list of items,
  `json.dumps`/`json.loads` being mutually inverse on well-formed blobs.
* Effects are passed explicitly: the request's `X-API-KEY` header, the
  JSON body, the generated `uuid4` string, the `datetime.now().isoformat()`
  string, and the AI-provider environment are all parameters.
-/

/-- A JSON value as produced by Python's `json.loads`: null, booleans,
numbers (modelled as integers), strings, arrays and objects. -/
inductive Json where
  | null
  | bool (b : Bool)
  | num (n : Int)
  | str (s : String)
  | arr (elems : List Json)
  | obj (fields : List (String × Json))

/-- A decoded JSON object (Python dict): an association list with unique
keys, in insertion order. -/
abbrev Item := List (String × Json)

/-- Python's `d.get(k)`: the value stored under `k`, or `None` (here
`none`) when the key is absent. -/
def pyGet (m : Item) (k : String) : Option Json :=
  m.lookup k

/-- Python's `d.get(k, dflt)`. -/
def pyGetD (m : Item) (k : String) (dflt : Json) : Json :=
  (m.lookup k).getD dflt

/-- Python's `k in d` membership test on a dict. -/
def hasKey (m : Item) (k : String) : Bool :=
  (m.lookup k).isSome

/-- Python's `d[k] = v`: replaces the value in place when the key is
present (keeping its position), appends a new binding otherwise. -/
def setKey (m : Item) (k : String) (v : Json) : Item :=
  if hasKey m k then m.map (fun p => if p.1 = k then (k, v) else p)
  else m ++ [(k, v)]

/-- Python truthiness of a decoded JSON value (`if not text: ...`):
`None`, `False`, `0`, `""`, `[]` and `{}` are falsy. -/
def pyTruthy : Json → Bool
  | .null => false
  | .bool b => b
  | .num n => n != 0
  | .str s => s != ""
  | .arr xs => !xs.isEmpty
  | .obj fs => !fs.isEmpty

mutual

/-- Python's `repr` of a decoded JSON value, used by `str` on non-string
values inside f-strings (string escaping inside `repr` is not modelled;
no verified routine renders non-string values). -/
def pyRepr : Json → String
  | .null => "None"
  | .bool true => "True"
  | .bool false => "False"
  | .num n => toString n
  | .str s => "'" ++ s ++ "'"
  | .arr xs => "[" ++ pyReprElems xs ++ "]"
  | .obj fs => "\x7b" ++ pyReprFields fs ++ "\x7d"

/-- Comma-separated `repr` of list elements. -/
def pyReprElems : List Json → String
  | [] => ""
  | [x] => pyRepr x
  | x :: xs => pyRepr x ++ ", " ++ pyReprElems xs

/-- Comma-separated `repr` of dict entries. -/
def pyReprFields : List (String × Json) → String
  | [] => ""
  | [(k, v)] => "'" ++ k ++ "': " ++ pyRepr v
  | (k, v) :: fs => "'" ++ k ++ "': " ++ pyRepr v ++ ", " ++ pyReprFields fs

end

/-- Python's `str()` applied to a decoded JSON value, as f-string
interpolation does: a string interpolates as itself, any other value via
its `repr`. -/
def pyStr : Json → String
  | .str s => s
  | j => pyRepr j

/-- Python's `i.get("id") == item_id` where `item_id` is a `str`: true
exactly when the item holds an equal string under `"id"` (a missing key
gives `None`, and `None` or a non-string value never equals a `str`). -/
def idMatches (i : Item) (item_id : String) : Bool :=
  match i.lookup "id" with
  | some (Json.str s) => s == item_id
  | _ => false

/-! ### Key-value store adapter (raw string level, main.py lines 27-37)

`db_get(key, default="[]")` has two branches: under `USE_REPLIT_DB` it
returns the stored value unless that value is falsy (`None` or `""`); the
in-memory fallback is a plain `dict.get`. -/

/-- The raw key-value store: a total map from keys to an optional stored
string (`none` = key never written). -/
abbrev RawStore := String → Option String

/-- Line 27-31, `db_get`: the stored string or the default. The flag
selects the Replit branch (falsy stored values also yield the default)
or the in-memory `dict.get` branch. -/
def db_get (useReplitDb : Bool) (store : RawStore) (key dflt : String) : String :=
  if useReplitDb then
    match store key with
    | some v => if v = "" then dflt else v
    | none => dflt
  else (store key).getD dflt

/-! ### An executable JSON parser (Python's `json.loads`)

Total by structural recursion on a fuel counter; numeric literals are
parsed as integers (a fractional or exponent part makes the parse fail,
matching the integer-only modelling of `Json.num`). -/

/-- JSON insignificant whitespace. -/
def jsonWs (c : Char) : Bool :=
  c == ' ' || c == '\n' || c == '\t' || c == '\r'

/-- Drop leading whitespace. -/
def dropWs : List Char → List Char
  | c :: cs => if jsonWs c then dropWs cs else c :: cs
  | [] => []

/-- Split off a maximal run of decimal digits. -/
def splitDigits : List Char → List Char × List Char
  | c :: cs =>
    if c.isDigit then
      let (ds, rest) := splitDigits cs
      (c :: ds, rest)
    else ([], c :: cs)
  | [] => ([], [])

/-- Value of a run of decimal digits. -/
def digitsVal (ds : List Char) : Nat :=
  ds.foldl (fun acc c => acc * 10 + (c.toNat - 48)) 0

/-- Value of a hexadecimal digit, if any. -/
def hexDigitVal (c : Char) : Option Nat :=
  if c.isDigit then some (c.toNat - 48)
  else if 'a' ≤ c && c ≤ 'f' then some (c.toNat - 87)
  else if 'A' ≤ c && c ≤ 'F' then some (c.toNat - 55)
  else none

/-- Decode the body of a JSON string literal up to its closing quote,
handling the escape sequences of RFC 8259 (a lone surrogate decodes to
its raw code point). -/
def decodeStringBody : List Char → Option (String × List Char)
  | [] => none
  | '"' :: rest => some ("", rest)
  | '\\' :: 'u' :: a :: b :: c :: d :: rest => do
    let ha ← hexDigitVal a
    let hb ← hexDigitVal b
    let hc ← hexDigitVal c
    let hd ← hexDigitVal d
    let (s, r) ← decodeStringBody rest
    pure (String.mk (Char.ofNat (((ha * 16 + hb) * 16 + hc) * 16 + hd) :: s.data), r)
  | '\\' :: e :: rest => do
    let c ← match e with
      | '"' => some '"'
      | '\\' => some '\\'
      | '/' => some '/'
      | 'b' => some (Char.ofNat 8)
      | 'f' => some (Char.ofNat 12)
      | 'n' => some '\n'
      | 'r' => some '\r'
      | 't' => some '\t'
      | _ => none
    let (s, r) ← decodeStringBody rest
    pure (String.mk (c :: s.data), r)
  | c :: rest => do
    let (s, r) ← decodeStringBody rest
    pure (String.mk (c :: s.data), r)

/-- Parse an integer numeral (optional minus sign then digits). -/
def decodeIntNumeral (cs : List Char) : Option (Int × List Char) :=
  match cs with
  | '-' :: rest =>
    let (ds, r) := splitDigits rest
    if ds.isEmpty then none else some (-(digitsVal ds : Int), r)
  | _ =>
    let (ds, r) := splitDigits cs
    if ds.isEmpty then none else some ((digitsVal ds : Int), r)

mutual

/-- Parse one JSON value from the character stream. -/
def decodeValue : Nat → List Char → Option (Json × List Char)
  | 0, _ => none
  | fuel + 1, cs =>
    match dropWs cs with
    | 'n' :: 'u' :: 'l' :: 'l' :: rest => some (.null, rest)
    | 't' :: 'r' :: 'u' :: 'e' :: rest => some (.bool true, rest)
    | 'f' :: 'a' :: 'l' :: 's' :: 'e' :: rest => some (.bool false, rest)
    | '"' :: rest =>
      match decodeStringBody rest with
      | some (s, r) => some (.str s, r)
      | none => none
    | '[' :: rest =>
      (match dropWs rest with
      | ']' :: r => some (.arr [], r)
      | other =>
        match decodeValue fuel other with
        | some (v, r) =>
          match decodeArrayTail fuel r with
          | some (vs, r2) => some (.arr (v :: vs), r2)
          | none => none
        | none => none)
    | c :: rest =>
      if c == '\x7b' then
        match dropWs rest with
        | '"' :: r =>
          match decodeMember fuel ('"' :: r) with
          | some (kv, r2) =>
            match decodeObjectTail fuel r2 with
            | some (kvs, r3) => some (.obj (kv :: kvs), r3)
            | none => none
          | none => none
        | other =>
          if other.head? == some '\x7d' then some (.obj [], other.tail)
          else none
      else if c == '-' || c.isDigit then
        match decodeIntNumeral (c :: rest) with
        | some (n, r) => some (.num n, r)
        | none => none
      else none
    | [] => none

/-- After a parsed element: either the closing bracket or a comma and
further elements. -/
def decodeArrayTail : Nat → List Char → Option (List Json × List Char)
  | 0, _ => none
  | fuel + 1, cs =>
    match dropWs cs with
    | ']' :: r => some ([], r)
    | ',' :: r =>
      match decodeValue fuel r with
      | some (v, r2) =>
        match decodeArrayTail fuel r2 with
        | some (vs, r3) => some (v :: vs, r3)
        | none => none
      | none => none
    | _ => none

/-- One `"key": value` member of an object. -/
def decodeMember : Nat → List Char → Option ((String × Json) × List Char)
  | 0, _ => none
  | fuel + 1, cs =>
    match dropWs cs with
    | '"' :: r =>
      match decodeStringBody r with
      | some (k, r2) =>
        match dropWs r2 with
        | ':' :: r3 =>
          match decodeValue fuel r3 with
          | some (v, r4) => some ((k, v), r4)
          | none => none
        | _ => none
      | none => none
    | _ => none

/-- After a parsed member: either the closing brace or a comma and
further members. -/
def decodeObjectTail : Nat → List Char → Option (List (String × Json) × List Char)
  | 0, _ => none
  | fuel + 1, cs =>
    match dropWs cs with
    | ',' :: r =>
      match decodeMember fuel r with
      | some (kv, r2) =>
        match decodeObjectTail fuel r2 with
        | some (kvs, r3) => some (kv :: kvs, r3)
        | none => none
      | none => none
    | c :: r => if c == '\x7d' then some ([], r) else none
    | [] => none

end

/-- Python's `json.loads`: parse a whole string as one JSON value (only
trailing whitespace may remain), `none` on a decode error. -/
def jsonLoads (s : String) : Option Json :=
  match decodeValue (s.length + 1) s.data with
  | some (v, rest) => if (dropWs rest).isEmpty then some v else none
  | none => none

/-- Lines 39-41, `db_items` seen at the raw-string level:
`json.loads(db_get(prefix, "[]"))`, then the decoded value must be a JSON
array for the handlers to use it (anything else is the unrecovered
malformed-blob failure). -/
def db_items_raw (useReplitDb : Bool) (store : RawStore) (coll : String) :
    Option (List Json) :=
  match jsonLoads (db_get useReplitDb store coll "[]") with
  | some (Json.arr xs) => some xs
  | _ => none

/-! ### Collection store (decoded level, main.py lines 39-52)

The handlers only ever store `json.dumps` of a list of dicts and read it
back with `json.loads`, so the blob is carried here in decoded form: a
collection name maps directly to its list of items (an absent blob is the
`"[]"` default, i.e. the empty list — the raw-level fact is proved
separately from `db_get` and `jsonLoads`). -/

/-- The decoded collection store: each collection name holds its decoded
list of items. -/
abbrev Store := String → List Item

/-- Lines 39-41, `db_items`: decode the collection's blob. -/
def db_items (store : Store) (coll : String) : List Item :=
  store coll

/-- Lines 43-47, `db_add`: append the item to the decoded list, store the
re-encoded list, return the item unchanged. -/
def db_add (store : Store) (coll : String) (item : Item) : Item × Store :=
  let items := db_items store coll
  (item, fun k => if k = coll then items ++ [item] else store k)

/-- Lines 49-52, `db_delete`: keep exactly the items whose `"id"` field
does not equal the given id (`i.get("id") != item_id`). -/
def db_delete (store : Store) (coll : String) (item_id : String) : Store :=
  fun k =>
    if k = coll then (db_items store coll).filter (fun i => !idMatches i item_id)
    else store k

/-! ### Auth middleware (main.py lines 16-17 and 55-59) -/

/-- Line 17: the configured secret's fallback when the
`HABITCARDS_API_KEY` environment variable is unset. -/
def defaultApiKey : String := "habitcards-dev-key"

/-- Lines 55-59, `check_auth`: compare the `X-API-KEY` header (absent
header reads as `""`) against the configured secret; on mismatch produce
the fixed 401 response, otherwise `None`. -/
def check_auth (cfgKey reqKey : String) : Option (Json × Nat) :=
  if reqKey ≠ cfgKey then some (Json.obj [("error", Json.str "Unauthorized")], 401)
  else none

/-! ### AI parsing (main.py lines 62-115)

Client construction and the outbound chat call are effects; they enter as
an environment: which provider constructors succeed, and what each
provider's call returns on a given prompt (`Except.error` is a raised
exception — API failure or `json.loads` failure on the reply). -/

/-- The two providers probed by `get_ai_client`. -/
inductive Provider where
  | openai
  | anthropic

/-- Outcome of the two client constructors: whether `OpenAI()` and
`anthropic.Anthropic()` (imports included) succeed. -/
structure ClientEnv where
  openai_ok : Bool
  anthropic_ok : Bool

/-- Lines 62-78, `get_ai_client`: try OpenAI, fall back to Anthropic,
else `(None, None)`; every constructor exception is swallowed. -/
def get_ai_client (env : ClientEnv) : Option Provider :=
  if env.openai_ok then some Provider.openai
  else if env.anthropic_ok then some Provider.anthropic
  else none

/-- Line 81: the fixed instruction prefixed to every prompt. -/
def promptBase : String :=
  "You are a voice command parser for a personal assistant app. Parse the user's voice input into structured JSON. Be creative and helpful. Fill in reasonable defaults for anything not mentioned."

/-- Lines 82-88: the mode-to-schema dict, in source order. -/
def schemas : List (String × String) :=
  [("alarm", "Return JSON: \x7b\"label\":\"alarm name\",\"time\":\"HH:mm\",\"icon\":\"SF Symbol\",\"routine\":[\x7b\"title\":\"step\",\"duration\":\"e.g. 5 min\",\"icon\":\"SF Symbol\"\x7d]\x7d"),
   ("meeting", "Return JSON: \x7b\"title\":\"name\",\"date\":\"day\",\"time\":\"h:mm a\",\"icon\":\"SF Symbol\",\"checklist\":[\x7b\"title\":\"step\",\"duration\":\"time\",\"icon\":\"SF Symbol\"\x7d],\"notes\":\"context\"\x7d"),
   ("mood", "Return JSON: \x7b\"mood\":\"one word\",\"level\":0.0to1.0,\"trigger\":\"cause\",\"suggestion\":\"action\"\x7d"),
   ("inbox", "Return JSON: \x7b\"source\":\"Email/Slack/etc\",\"sourceIcon\":\"SF Symbol\",\"priority\":\"High/Medium/Low\",\"actionItems\":[\x7b\"title\":\"task\",\"duration\":\"time\",\"icon\":\"SF Symbol\"\x7d]\x7d"),
   ("schedule", "Return JSON: \x7b\"blocks\":[\x7b\"title\":\"activity\",\"startTime\":\"h:mm a\",\"endTime\":\"h:mm a\",\"duration\":\"e.g. 1h\",\"icon\":\"SF Symbol\",\"colorName\":\"blue/green/purple/orange/teal/red\"\x7d]\x7d")]

/-- Lines 80-90, `build_prompt`: `schemas.get(mode, schemas["alarm"])`
then the f-string `f"{base}\n\n{schema}\n\nVoice input: \"{text}\""`. -/
def build_prompt (mode text : String) : String :=
  let schema := (schemas.lookup mode).getD (schemas.lookup "alarm").get!
  promptBase ++ "\n\n" ++ schema ++ "\n\nVoice input: \"" ++ text ++ "\""

/-- The AI environment of one parse request: constructor outcomes and the
result of each provider's chat call on a given final prompt string
(already composed with any provider-specific suffix), after parsing the
reply with `json.loads`. -/
structure AIEnv where
  clients : ClientEnv
  call : Provider → String → Except String Json

/-- Lines 92-115, `parse_with_ai`: select a provider, build the prompt,
call the provider (Anthropic gets the JSON-coaxing suffix appended);
with no provider, raise `Exception("No AI provider available")`. -/
def parse_with_ai (env : AIEnv) (text mode : String) : Except String Json :=
  let prompt := build_prompt mode text
  match get_ai_client env.clients with
  | some Provider.openai => env.call Provider.openai prompt
  | some Provider.anthropic =>
    env.call Provider.anthropic (prompt ++ "\n\nReturn ONLY valid JSON, no other text.")
  | none => Except.error "No AI provider available"

/-! ### Routes (main.py lines 129-191)

Each handler takes the configured secret, the request's `X-API-KEY`
header value and its decoded JSON body; mutating handlers also return the
updated store. `jsonify` of a handler value is the response body paired
with its status (200 when the source returns a bare body). -/

/-- Lines 129-146, `parse_voice` (`POST /api/parse`): auth, read
`text`/`mode` with defaults, reject falsy text with a 400, then call the
AI and map any raised exception to a 500 whose body is its message. -/
def parse_voice (cfgKey : String) (env : AIEnv) (reqKey : String)
    (body : Option Item) : Json × Nat :=
  match check_auth cfgKey reqKey with
  | some r => r
  | none =>
    let data := body.getD []
    let text := pyGetD data "text" (Json.str "")
    let mode := pyGetD data "mode" (Json.str "alarm")
    if !pyTruthy text then (Json.obj [("error", Json.str "No text provided")], 400)
    else
      match parse_with_ai env (pyStr text) (pyStr mode) with
      | Except.ok result => (result, 200)
      | Except.error e => (Json.obj [("error", Json.str e)], 500)

/-- Lines 153-157, `list_items` (`GET /api/{coll}`): auth, then the full
decoded collection as a JSON array. -/
def list_items (cfgKey : String) (store : Store) (coll : String)
    (reqKey : String) : Json × Nat :=
  match check_auth cfgKey reqKey with
  | some r => r
  | none => (Json.arr ((db_items store coll).map Json.obj), 200)

/-- Lines 159-168, `create_item` (`POST /api/{coll}`): auth, default the
body to `{}`, generate an id only when none was supplied (`genId` is this
request's `str(uuid.uuid4())`), stamp `createdAt` with `now` (this
request's `datetime.now().isoformat()`), append, reply 201 with the
stored item. -/
def create_item (cfgKey : String) (store : Store) (coll : String)
    (reqKey : String) (body : Option Item) (genId now : String) :
    (Json × Nat) × Store :=
  match check_auth cfgKey reqKey with
  | some r => (r, store)
  | none =>
    let data := body.getD []
    let data := if hasKey data "id" then data else setKey data "id" (Json.str genId)
    let data := setKey data "createdAt" (Json.str now)
    let (item, store2) := db_add store coll data
    ((Json.obj item, 201), store2)

/-- Lines 170-178, `get_item` (`GET /api/{coll}/{id}`): auth, linear scan
for the first item whose `"id"` equals the path id, 404 on `None` (or on
a falsy match, per `if not item`). -/
def get_item (cfgKey : String) (store : Store) (coll : String)
    (reqKey : String) (item_id : String) : Json × Nat :=
  match check_auth cfgKey reqKey with
  | some r => r
  | none =>
    match (db_items store coll).find? (fun i => idMatches i item_id) with
    | none => (Json.obj [("error", Json.str "Not found")], 404)
    | some item =>
      if item.isEmpty then (Json.obj [("error", Json.str "Not found")], 404)
      else (Json.obj item, 200)

/-- Lines 180-185, `delete_item` (`DELETE /api/{coll}/{id}`): auth,
remove by id, always acknowledge with `{"deleted": true}`. -/
def delete_item (cfgKey : String) (store : Store) (coll : String)
    (reqKey : String) (item_id : String) : (Json × Nat) × Store :=
  match check_auth cfgKey reqKey with
  | some r => (r, store)
  | none => ((Json.obj [("deleted", Json.bool true)], 200), db_delete store coll item_id)

/-- Lines 194-199: the six collections for which CRUD routes are
registered. -/
def collections : List String :=
  ["alarms", "meetings", "moods", "inbox", "schedule", "profiles"]

/-- The item actually stored by `create_item` for a request body `data`:
the body with an id filled in only when absent and `createdAt` stamped. -/
def storedItem (data : Item) (genId now : String) : Item :=
  setKey (if hasKey data "id" then data else setKey data "id" (Json.str genId))
    "createdAt" (Json.str now)

/-! ### Helper lemmas on dict operations -/

/-- Replacing the value under `k` in every binding named `k` makes the
lookup of `k` yield the new value exactly when `k` was bound. -/
theorem lookup_replaceVal (m : Item) (k : String) (v : Json) :
    (m.map (fun p => if p.1 = k then (k, v) else p)).lookup k =
      if (m.lookup k).isSome then some v else none := by
  induction m with
  | nil => simp
  | cons p rest ih =>
    obtain ⟨a, b⟩ := p
    by_cases ha : a = k
    · subst ha
      simp only [List.map_cons, eq_self_iff_true, if_true, List.lookup_cons,
        beq_self_eq_true]
      simp
    · have hk : (k == a) = false := beq_eq_false_iff_ne.mpr (Ne.symm ha)
      simp only [List.map_cons, if_neg ha, List.lookup_cons, hk, ih]

/-- Replacing the value under `k` leaves every other lookup unchanged. -/
theorem lookup_replaceVal_ne (m : Item) (k k2 : String) (v : Json) (h : k2 ≠ k) :
    (m.map (fun p => if p.1 = k then (k, v) else p)).lookup k2 = m.lookup k2 := by
  induction m with
  | nil => simp
  | cons p rest ih =>
    obtain ⟨a, b⟩ := p
    by_cases ha : a = k
    · subst ha
      have hk : (k2 == a) = false := beq_eq_false_iff_ne.mpr h
      simp only [List.map_cons, eq_self_iff_true, if_true, List.lookup_cons, hk, ih]
    · simp only [List.map_cons, if_neg ha, List.lookup_cons, ih]

/-- Appending a binding for an unbound key makes its lookup find it. -/
theorem lookup_append_single_self (m : Item) (k : String) (v : Json)
    (h : m.lookup k = none) : (m ++ [(k, v)]).lookup k = some v := by
  induction m with
  | nil => simp [List.lookup_cons]
  | cons p rest ih =>
    obtain ⟨a, b⟩ := p
    cases hk : (k == a) with
    | true => exact absurd (by simpa only [List.lookup_cons, hk] using h) (by simp)
    | false =>
      simp only [List.lookup_cons, hk] at h
      simp only [List.cons_append, List.lookup_cons, hk]
      exact ih h

/-- Appending a binding for `k` leaves every other lookup unchanged. -/
theorem lookup_append_single_ne (m : Item) (k k2 : String) (v : Json) (h : k2 ≠ k) :
    (m ++ [(k, v)]).lookup k2 = m.lookup k2 := by
  induction m with
  | nil => simp [List.lookup_cons, beq_eq_false_iff_ne.mpr h]
  | cons p rest ih =>
    obtain ⟨a, b⟩ := p
    cases hk : (k2 == a) with
    | true => simp only [List.cons_append, List.lookup_cons, hk]
    | false => simp only [List.cons_append, List.lookup_cons, hk, ih]

/-- Python dict assignment seen through lookup: the assigned key now
holds the assigned value. -/
theorem lookup_setKey_self (m : Item) (k : String) (v : Json) :
    (setKey m k v).lookup k = some v := by
  unfold setKey hasKey
  split
  · rename_i h
    rw [lookup_replaceVal]
    simp [h]
  · rename_i h
    exact lookup_append_single_self m k v (by
      cases hm : m.lookup k with
      | none => rfl
      | some _ => exact absurd (by simp [hm]) h)

/-- Python dict assignment seen through lookup: every other key is
untouched. -/
theorem lookup_setKey_ne (m : Item) (k k2 : String) (v : Json) (h : k2 ≠ k) :
    (setKey m k v).lookup k2 = m.lookup k2 := by
  unfold setKey
  split
  · exact lookup_replaceVal_ne m k k2 v h
  · exact lookup_append_single_ne m k k2 v h

/-- C1: a request to any protected endpoint whose `X-API-KEY` header does
not equal the configured secret gets the fixed 401 Unauthorized body, and
the mutating handlers leave the store untouched. -/
theorem auth_rejects_and_preserves_store (cfgKey reqKey : String) (store : Store)
    (coll item_id : String) (body : Option Item) (genId now : String) (env : AIEnv)
    (h : reqKey ≠ cfgKey) :
    list_items cfgKey store coll reqKey =
      (Json.obj [("error", Json.str "Unauthorized")], 401) ∧
    get_item cfgKey store coll reqKey item_id =
      (Json.obj [("error", Json.str "Unauthorized")], 401) ∧
    parse_voice cfgKey env reqKey body =
      (Json.obj [("error", Json.str "Unauthorized")], 401) ∧
    create_item cfgKey store coll reqKey body genId now =
      ((Json.obj [("error", Json.str "Unauthorized")], 401), store) ∧
    delete_item cfgKey store coll reqKey item_id =
      ((Json.obj [("error", Json.str "Unauthorized")], 401), store) := by
  simp [list_items, get_item, parse_voice, create_item, delete_item, check_auth, h]

/-- C1 witness: the rejection at a concrete wrong key against the default
configured secret. -/
theorem auth_rejects_and_preserves_store_check :
    ("wrong" : String) ≠ defaultApiKey ∧
    list_items defaultApiKey (fun _ => []) "alarms" "wrong" =
      (Json.obj [("error", Json.str "Unauthorized")], 401) := by
  refine ⟨by decide, ?_⟩
  exact (auth_rejects_and_preserves_store defaultApiKey "wrong" (fun _ => []) "alarms"
    "a1" none "g1" "t1" ⟨⟨false, false⟩, fun _ _ => Except.error ""⟩ (by decide)).1

/-- C4: `db_add` appends the item at the end of the collection, leaves
every other collection unchanged, and returns the stored item unchanged. -/
theorem append_semantics (store : Store) (coll : String) (item : Item) :
    (db_add store coll item).1 = item ∧
    (db_add store coll item).2 coll = store coll ++ [item] ∧
    ∀ k, k ≠ coll → (db_add store coll item).2 k = store k := by
  refine ⟨rfl, by simp [db_add, db_items], fun k hk => by simp [db_add, db_items, hk]⟩

/-- C4 witness: appending to the empty alarms collection. -/
theorem append_semantics_check :
    (db_add (fun _ => []) "alarms" [("label", Json.str "x")]).1 =
      [("label", Json.str "x")] ∧
    (db_add (fun _ => []) "alarms" [("label", Json.str "x")]).2 "alarms" =
      [[("label", Json.str "x")]] ∧
    (db_add (fun _ => []) "alarms" [("label", Json.str "x")]).2 "moods" = [] := by
  obtain ⟨h1, h2, h3⟩ := append_semantics (fun _ => []) "alarms" [("label", Json.str "x")]
  exact ⟨h1, by simpa using h2, h3 "moods" (by decide)⟩

/-- C3: `delete_item` stores exactly the items whose id does not equal
the given id, is a no-op on the store when nothing matches, always
answers the same `deleted` acknowledgment, and removing twice equals
removing once. -/
theorem delete_filters_and_is_idempotent (cfgKey reqKey : String) (store : Store)
    (coll item_id : String) (h : reqKey = cfgKey) :
    (delete_item cfgKey store coll reqKey item_id).1 =
      (Json.obj [("deleted", Json.bool true)], 200) ∧
    (∀ k, (delete_item cfgKey store coll reqKey item_id).2 k =
      if k = coll then (store coll).filter (fun i => !idMatches i item_id)
      else store k) ∧
    ((∀ i ∈ store coll, idMatches i item_id = false) →
      (delete_item cfgKey store coll reqKey item_id).2 = store) ∧
    db_delete (db_delete store coll item_id) coll item_id =
      db_delete store coll item_id := by
  subst h
  have hpt : ∀ k, (delete_item reqKey store coll reqKey item_id).2 k =
      if k = coll then (store coll).filter (fun i => !idMatches i item_id)
      else store k := by
    intro k
    simp [delete_item, check_auth, db_delete, db_items]
  refine ⟨by simp [delete_item, check_auth], hpt, ?_, ?_⟩
  · intro hnone
    funext k
    rw [hpt k]
    by_cases hk : k = coll
    · subst hk
      rw [if_pos rfl]
      exact List.filter_eq_self.mpr (fun i hi => by simp [hnone i hi])
    · rw [if_neg hk]
  · funext k
    by_cases hk : k = coll
    · subst hk
      simp [db_delete, db_items, List.filter_filter]
    · simp [db_delete, db_items, hk]

/-- C3 witness: deleting an id absent from a concrete one-item collection
acknowledges and changes nothing. -/
theorem delete_filters_and_is_idempotent_check :
    (delete_item defaultApiKey (fun _ => [[("id", Json.str "a")]]) "alarms"
        defaultApiKey "z").1 = (Json.obj [("deleted", Json.bool true)], 200) ∧
    (delete_item defaultApiKey (fun _ => [[("id", Json.str "a")]]) "alarms"
        defaultApiKey "z").2 "alarms" = [[("id", Json.str "a")]] := by
  obtain ⟨h1, h2, h3, h4⟩ := delete_filters_and_is_idempotent defaultApiKey
    defaultApiKey (fun _ => [[("id", Json.str "a")]]) "alarms" "z" rfl
  refine ⟨h1, ?_⟩
  rw [h3 ?_]
  · intro i hi
    simp only [List.mem_singleton] at hi
    subst hi
    rfl

/-- C5: every mode outside the closed enumeration produces the
alarm-shaped prompt. -/
theorem unknown_mode_uses_alarm_prompt (mode text : String)
    (h : mode ∉ (["alarm", "meeting", "mood", "inbox", "schedule"] : List String)) :
    build_prompt mode text = build_prompt "alarm" text := by
  simp only [List.mem_cons, List.not_mem_nil, or_false, not_or] at h
  obtain ⟨h1, h2, h3, h4, h5⟩ := h
  simp [build_prompt, schemas, List.lookup_cons, beq_eq_false_iff_ne.mpr h1,
    beq_eq_false_iff_ne.mpr h2, beq_eq_false_iff_ne.mpr h3,
    beq_eq_false_iff_ne.mpr h4, beq_eq_false_iff_ne.mpr h5]

/-- C5 witness: a concrete unknown mode falls back to the alarm prompt. -/
theorem unknown_mode_uses_alarm_prompt_check :
    build_prompt "banana" "wake me at 7" = build_prompt "alarm" "wake me at 7" :=
  unknown_mode_uses_alarm_prompt "banana" "wake me at 7" (by decide)

/-- C8: a collection whose blob was never written lists as the empty
array: `db_get` yields the `"[]"` default under both storage backends,
which `json.loads` decodes to the empty sequence. -/
theorem absent_blob_lists_empty (useReplitDb : Bool) (store : RawStore)
    (coll : String) (h : store coll = none) :
    db_get useReplitDb store coll "[]" = "[]" ∧
    jsonLoads "[]" = some (Json.arr []) ∧
    db_items_raw useReplitDb store coll = some [] := by
  have hget : db_get useReplitDb store coll "[]" = "[]" := by
    cases useReplitDb <;> simp [db_get, h]
  refine ⟨hget, by rfl, ?_⟩
  unfold db_items_raw
  rw [hget]
  rfl

/-- C8 witness: the empty store lists empty under both backends. -/
theorem absent_blob_lists_empty_check :
    db_items_raw true (fun _ => none) "alarms" = some [] ∧
    db_items_raw false (fun _ => none) "alarms" = some [] :=
  ⟨(absent_blob_lists_empty true (fun _ => none) "alarms" rfl).2.2,
   (absent_blob_lists_empty false (fun _ => none) "alarms" rfl).2.2⟩

/-- C2: POSTing `{"label": "x"}` to the alarms collection and GETting the
generated id back returns the stored item: label `"x"`, the non-empty
generated id, and the server-side `createdAt` stamp (the generated uuid
is fresh for the collection, as a uuid4 is). -/
theorem post_then_get_roundtrip (cfgKey : String) (store : Store) (genId now : String)
    (hfresh : ∀ i ∈ store "alarms", idMatches i genId = false) (hid : genId ≠ "") :
    ((create_item cfgKey store "alarms" cfgKey
        (some [("label", Json.str "x")]) genId now).1).2 = 201 ∧
    genId ≠ "" ∧
    get_item cfgKey
        (create_item cfgKey store "alarms" cfgKey
          (some [("label", Json.str "x")]) genId now).2 "alarms" cfgKey genId =
      (Json.obj [("label", Json.str "x"), ("id", Json.str genId),
        ("createdAt", Json.str now)], 200) := by
  have hauth : check_auth cfgKey cfgKey = none := by simp [check_auth]
  have hcr : create_item cfgKey store "alarms" cfgKey
      (some [("label", Json.str "x")]) genId now =
      ((Json.obj [("label", Json.str "x"), ("id", Json.str genId),
        ("createdAt", Json.str now)], 201),
       fun k => if k = "alarms" then store "alarms" ++
         [[("label", Json.str "x"), ("id", Json.str genId),
           ("createdAt", Json.str now)]] else store k) := by
    unfold create_item
    rw [hauth]
    rfl
  have hold : (store "alarms").find? (fun i => idMatches i genId) = none :=
    List.find?_eq_none.mpr (fun x hx => by simp [hfresh x hx])
  have hfind : List.find? (fun i => idMatches i genId)
      (store "alarms" ++ [[("label", Json.str "x"), ("id", Json.str genId),
        ("createdAt", Json.str now)]]) =
      some [("label", Json.str "x"), ("id", Json.str genId),
        ("createdAt", Json.str now)] := by
    rw [List.find?_append, hold]
    simp [List.find?, idMatches, List.lookup_cons]
  refine ⟨by rw [hcr], hid, ?_⟩
  rw [hcr]
  simp [get_item, hauth, db_items, hfind]

/-- C2 witness: the round-trip on the empty store with a concrete uuid
and timestamp. -/
theorem post_then_get_roundtrip_check :
    get_item defaultApiKey
        (create_item defaultApiKey (fun _ => []) "alarms" defaultApiKey
          (some [("label", Json.str "x")]) "id-1" "2026-02-03T04:05:06").2
        "alarms" defaultApiKey "id-1" =
      (Json.obj [("label", Json.str "x"), ("id", Json.str "id-1"),
        ("createdAt", Json.str "2026-02-03T04:05:06")], 200) :=
  (post_then_get_roundtrip defaultApiKey (fun _ => []) "id-1" "2026-02-03T04:05:06"
    (by intro i hi; simp at hi) (by decide)).2.2

/-- C6: with no constructible provider the parse call raises the
no-provider exception, and any exception from provider selection or the
provider call surfaces as a 500 whose error body is the exception's
message. -/
theorem parse_error_surfaces_as_500 (cfgKey reqKey : String) (env : AIEnv)
    (body : Option Item) (h : reqKey = cfgKey) :
    (env.clients.openai_ok = false → env.clients.anthropic_ok = false →
      ∀ text mode, parse_with_ai env text mode =
        Except.error "No AI provider available") ∧
    (∀ m, pyTruthy (pyGetD (body.getD []) "text" (Json.str "")) = true →
      parse_with_ai env (pyStr (pyGetD (body.getD []) "text" (Json.str "")))
          (pyStr (pyGetD (body.getD []) "mode" (Json.str "alarm"))) =
        Except.error m →
      parse_voice cfgKey env reqKey body =
        (Json.obj [("error", Json.str m)], 500)) := by
  subst h
  constructor
  · intro h1 h2 text mode
    simp [parse_with_ai, get_ai_client, h1, h2]
  · intro m htruth hcall
    simp [parse_voice, check_auth, htruth, hcall]

/-- C6 witness: both constructors failing on a concrete request yields
the 500 with the no-provider message. -/
theorem parse_error_surfaces_as_500_check :
    parse_with_ai ⟨⟨false, false⟩, fun _ _ => Except.ok Json.null⟩ "hello" "alarm" =
      Except.error "No AI provider available" ∧
    parse_voice defaultApiKey ⟨⟨false, false⟩, fun _ _ => Except.ok Json.null⟩
        defaultApiKey (some [("text", Json.str "hello")]) =
      (Json.obj [("error", Json.str "No AI provider available")], 500) := by
  have h := parse_error_surfaces_as_500 defaultApiKey defaultApiKey
    ⟨⟨false, false⟩, fun _ _ => Except.ok Json.null⟩
    (some [("text", Json.str "hello")]) rfl
  exact ⟨h.1 rfl rfl "hello" "alarm",
    h.2 "No AI provider available" (by rfl) (h.1 rfl rfl _ _)⟩

/-- C7: an authenticated parse request without a usable `text` field gets
the fixed 400 error, while a bad key on the same request is rejected with
the 401 before the validation runs. -/
theorem missing_text_gives_400_after_auth (cfgKey reqKey : String) (env : AIEnv)
    (body : Option Item) (hauth : reqKey = cfgKey)
    (htext : (body.getD []).lookup "text" = none ∨
      (body.getD []).lookup "text" = some (Json.str "")) :
    parse_voice cfgKey env reqKey body =
      (Json.obj [("error", Json.str "No text provided")], 400) ∧
    ∀ badKey, badKey ≠ cfgKey →
      parse_voice cfgKey env badKey body =
        (Json.obj [("error", Json.str "Unauthorized")], 401) := by
  subst hauth
  constructor
  · have hfalse : pyTruthy (pyGetD (body.getD []) "text" (Json.str "")) = false := by
      rcases htext with h | h <;> simp [pyGetD, h, pyTruthy]
    simp [parse_voice, check_auth, hfalse]
  · intro badKey hb
    simp [parse_voice, check_auth, hb]

/-- C7 witness: a bodyless request is rejected 400 when authenticated and
401 when not. -/
theorem missing_text_gives_400_after_auth_check :
    parse_voice defaultApiKey ⟨⟨true, true⟩, fun _ _ => Except.ok Json.null⟩
        defaultApiKey none =
      (Json.obj [("error", Json.str "No text provided")], 400) ∧
    parse_voice defaultApiKey ⟨⟨true, true⟩, fun _ _ => Except.ok Json.null⟩
        "wrong" none =
      (Json.obj [("error", Json.str "Unauthorized")], 401) := by
  have h := missing_text_gives_400_after_auth defaultApiKey defaultApiKey
    ⟨⟨true, true⟩, fun _ _ => Except.ok Json.null⟩ none rfl (Or.inl rfl)
  exact ⟨h.1, h.2 "wrong" (by decide)⟩

/-- C9: the created item differs from the submitted body only at `id`
(kept when supplied, generated when absent) and `createdAt` (always
stamped server-side); the response is 201 with exactly the stored item. -/
theorem create_touches_only_id_and_createdAt (cfgKey reqKey : String) (store : Store)
    (coll : String) (data : Item) (genId now : String) (hauth : reqKey = cfgKey) :
    (create_item cfgKey store coll reqKey (some data) genId now).1 =
      (Json.obj (storedItem data genId now), 201) ∧
    (create_item cfgKey store coll reqKey (some data) genId now).2 coll =
      store coll ++ [storedItem data genId now] ∧
    (∀ k, k ≠ "id" → k ≠ "createdAt" →
      (storedItem data genId now).lookup k = data.lookup k) ∧
    (∀ v, data.lookup "id" = some v →
      (storedItem data genId now).lookup "id" = some v) ∧
    (data.lookup "id" = none →
      (storedItem data genId now).lookup "id" = some (Json.str genId)) ∧
    (storedItem data genId now).lookup "createdAt" = some (Json.str now) := by
  subst hauth
  have hauth2 : check_auth reqKey reqKey = none := by simp [check_auth]
  have hform : create_item reqKey store coll reqKey (some data) genId now =
      ((Json.obj (storedItem data genId now), 201),
       fun k => if k = coll then store coll ++ [storedItem data genId now]
       else store k) := by
    unfold create_item storedItem
    rw [hauth2]
    rfl
  refine ⟨by rw [hform], by rw [hform]; simp, ?_, ?_, ?_, ?_⟩
  · intro k hk1 hk2
    unfold storedItem
    rw [lookup_setKey_ne _ _ _ _ hk2]
    by_cases hid : hasKey data "id" = true
    · rw [if_pos hid]
    · rw [if_neg hid, lookup_setKey_ne _ _ _ _ hk1]
  · intro v hv
    have hid : hasKey data "id" = true := by simp [hasKey, hv]
    unfold storedItem
    rw [lookup_setKey_ne _ _ _ _ (by decide : ("id" : String) ≠ "createdAt"),
      if_pos hid, hv]
  · intro hnone
    have hid : ¬ hasKey data "id" = true := by simp [hasKey, hnone]
    unfold storedItem
    rw [lookup_setKey_ne _ _ _ _ (by decide : ("id" : String) ≠ "createdAt"),
      if_neg hid, lookup_setKey_self]
  · exact lookup_setKey_self _ _ _

/-- C9 witness: a caller-supplied id is kept, the label is untouched and
`createdAt` is stamped, on a concrete request. -/
theorem create_touches_only_id_and_createdAt_check :
    (create_item defaultApiKey (fun _ => []) "alarms" defaultApiKey
        (some [("label", Json.str "y"), ("id", Json.str "given")]) "gen" "t0").1 =
      (Json.obj (storedItem [("label", Json.str "y"), ("id", Json.str "given")]
        "gen" "t0"), 201) ∧
    (storedItem [("label", Json.str "y"), ("id", Json.str "given")]
      "gen" "t0").lookup "id" = some (Json.str "given") ∧
    (storedItem [("label", Json.str "y"), ("id", Json.str "given")]
      "gen" "t0").lookup "label" = some (Json.str "y") ∧
    (storedItem [("label", Json.str "y"), ("id", Json.str "given")]
      "gen" "t0").lookup "createdAt" = some (Json.str "t0") := by
  obtain ⟨h1, h2, hframe, hkeep, hgen, hts⟩ := create_touches_only_id_and_createdAt
    defaultApiKey defaultApiKey (fun _ => []) "alarms"
    [("label", Json.str "y"), ("id", Json.str "given")] "gen" "t0" rfl
  refine ⟨h1, hkeep (Json.str "given") (by rfl), ?_, hts⟩
  rw [hframe "label" (by decide) (by decide)]
  rfl

/-- C10: an item without an `id` field is unreachable through the by-id
operations: `db_delete` keeps it for every id, and `get_item` answers 404
unless some item's id field equals the path id, in which case it returns
such an item. -/
theorem idless_items_unreachable_by_id (cfgKey reqKey : String) (store : Store)
    (coll item_id : String) (hauth : reqKey = cfgKey) :
    (∀ i ∈ store coll, i.lookup "id" = none →
      i ∈ db_delete store coll item_id coll) ∧
    ((∀ i ∈ store coll, idMatches i item_id = false) →
      get_item cfgKey store coll reqKey item_id =
        (Json.obj [("error", Json.str "Not found")], 404)) ∧
    (∀ b, get_item cfgKey store coll reqKey item_id = (b, 200) →
      ∃ i, i ∈ store coll ∧ i.lookup "id" = some (Json.str item_id) ∧
        b = Json.obj i) := by
  subst hauth
  have hauth2 : check_auth reqKey reqKey = none := by simp [check_auth]
  refine ⟨?_, ?_, ?_⟩
  · intro i hi hnone
    have hkeep : (!idMatches i item_id) = true := by simp [idMatches, hnone]
    simp [db_delete, db_items, List.mem_filter, hi, hkeep]
  · intro hall
    have hfind : List.find? (fun i => idMatches i item_id) (db_items store coll) = none :=
      List.find?_eq_none.mpr (fun x hx => by simp [hall x hx])
    simp [get_item, hauth2, hfind]
  · intro b hb
    rcases hfind : List.find? (fun i => idMatches i item_id) (db_items store coll)
      with _ | it
    · simp [get_item, hauth2, hfind] at hb
    · by_cases hemp : it.isEmpty
      · simp [get_item, hauth2, hfind, hemp] at hb
      · simp [get_item, hauth2, hfind, hemp] at hb
        have hmem := List.mem_of_find?_eq_some hfind
        have hpred := List.find?_some hfind
        have hid : it.lookup "id" = some (Json.str item_id) := by
          unfold idMatches at hpred
          rcases hlk : List.lookup "id" it with _ | j
          · rw [hlk] at hpred; simp at hpred
          · rw [hlk] at hpred
            cases j <;> simp at hpred
            rw [hpred]
        exact ⟨it, hmem, hid, hb.symm⟩

/-- C10 witness: a concrete id-less item survives a delete and cannot be
fetched by id. -/
theorem idless_items_unreachable_by_id_check :
    [("label", Json.str "a")] ∈ db_delete (fun _ => [[("label", Json.str "a")]])
      "alarms" "z" "alarms" ∧
    get_item defaultApiKey (fun _ => [[("label", Json.str "a")]]) "alarms"
      defaultApiKey "z" = (Json.obj [("error", Json.str "Not found")], 404) := by
  obtain ⟨h1, h2, h3⟩ := idless_items_unreachable_by_id defaultApiKey defaultApiKey
    (fun _ => [[("label", Json.str "a")]]) "alarms" "z" rfl
  exact ⟨h1 [("label", Json.str "a")] (by simp) rfl,
    h2 (by intro i hi; simp at hi; subst hi; rfl)⟩
